import Mathlib

set_option maxRecDepth 16384

/-!
Verification of the n8n-mcp stub MCP server (stdio variant `src/unnamed/part_000`
and Vercel HTTP variant `src/unnamed/part_001`).

The JavaScript source is shallowly embedded: JSON values become the `Json`
inductive below, JavaScript truthiness / strict equality / `typeof` /
`Object.keys` become executable Lean functions mirroring ECMAScript semantics
on the values that can occur (values produced by `JSON.parse`, so no
`undefined` inside documents; an absent object property is `Option.none`).
Uncaught runtime exceptions (e.g. calling `.forEach` on a non-array, or
property access on `null`) are modelled as `Except.error ()`: in the stdio
variant `main` catches them, logs, and emits nothing; in the HTTP variant the
top-level handler catches them and replies 500 (the 500 body echoes the
runtime error message and is not modelled, as nothing below depends on it).
-/

/-- JSON values, as produced by `JSON.parse`.  Numbers are rationals: every
numeric literal in the source (`-32600`, `4.2`, `250`, ...) is exactly
representable and JavaScript number formatting of these terminating decimals is
reproduced by `formatNum`. -/
inductive Json where
  | null : Json
  | bool (b : Bool) : Json
  | num (q : Rat) : Json
  | str (s : String) : Json
  | arr (elems : List Json) : Json
  | obj (fields : List (String × Json)) : Json

mutual

/-- Structural equality on `Json`; used to model JavaScript strict equality
`===` in the (only) places the source uses it: comparisons with string
literals, where `===` and structural equality agree. -/
def Json.beq : Json → Json → Bool
  | .null, .null => true
  | .bool a, .bool b => a == b
  | .num a, .num b => a == b
  | .str a, .str b => a == b
  | .arr a, .arr b => Json.beqList a b
  | .obj a, .obj b => Json.beqFields a b
  | _, _ => false

def Json.beqList : List Json → List Json → Bool
  | [], [] => true
  | a :: as, b :: bs => Json.beq a b && Json.beqList as bs
  | _, _ => false

def Json.beqFields : List (String × Json) → List (String × Json) → Bool
  | [], [] => true
  | (k, v) :: as, (k', v') :: bs => k == k' && Json.beq v v' && Json.beqFields as bs
  | _, _ => false

end

instance : BEq Json := ⟨Json.beq⟩

/-- JavaScript truthiness of a value (`if (x)`).  `NaN` cannot arise from
`JSON.parse`, so a number is falsy exactly when it is `0`. -/
def Json.truthy : Json → Bool
  | .null => false
  | .bool b => b
  | .num q => !(q == 0)
  | .str s => !(s == "")
  | .arr _ => true
  | .obj _ => true

/-- Truthiness of a possibly-absent value (`undefined` is falsy). -/
def truthyOpt : Option Json → Bool
  | none => false
  | some j => j.truthy

/-- JavaScript strict equality `x === lit` where `x` may be `undefined`
(absent): `undefined === lit` is `false`. -/
def jsIs (o : Option Json) (j : Json) : Bool :=
  match o with
  | none => false
  | some v => Json.beq v j

/-- Association lookup with the semantics of a `JSON.parse`d object: when a key
is repeated the LAST occurrence wins. -/
def assocLast (fields : List (String × Json)) (k : String) : Option Json :=
  match fields with
  | [] => none
  | (k', v) :: rest =>
    match assocLast rest k with
    | some r => some r
    | none => if k' == k then some v else none

/-- JavaScript property access `x.k` / `x[k]` for the shapes the source reads
named properties from: objects yield the property value, everything else
(including `null`, whose plain access would throw — the throwing sites are
modelled explicitly where they occur) yields `undefined` (`none`). -/
def jsGet : Json → String → Option Json
  | .obj fields, k => assocLast fields k
  | _, _ => none

/-- Optional-chaining access `x?.k`: `undefined`/`null` short-circuit to
`undefined`. -/
def jsGetOpt (o : Option Json) (k : String) : Option Json :=
  match o with
  | none => none
  | some j => jsGet j k

/-- First-occurrence dedup of key lists (via a seen-accumulator), matching the
key order of a `JSON.parse`d object with repeated keys. -/
def dedupFirstAux (seen : List String) : List String → List String
  | [] => []
  | k :: ks =>
    if seen.contains k then dedupFirstAux seen ks
    else k :: dedupFirstAux (k :: seen) ks

def dedupFirst (l : List String) : List String := dedupFirstAux [] l

/-- `Object.keys`: own enumerable keys — property names for objects, index
strings for arrays and strings, `[]` for primitives. -/
def jsKeys : Json → List String
  | .obj fields => dedupFirst (fields.map Prod.fst)
  | .arr elems => (List.range elems.length).map (fun i => toString i)
  | .str s => (List.range s.length).map (fun i => toString i)
  | _ => []

/-- `Object.keys(x)` paired with the corresponding property values `x[k]`. -/
def jsEntries : Json → List (String × Json)
  | .obj fields =>
    (dedupFirst (fields.map Prod.fst)).map
      (fun k => (k, (assocLast fields k).getD Json.null))
  | .arr elems => elems.enum.map (fun (i, v) => (toString i, v))
  | .str s => s.data.enum.map (fun (i, c) => (toString i, Json.str (String.mk [c])))
  | _ => []

/-- JavaScript `typeof x` (never applied to `undefined` in the modelled code
paths; note `typeof null === "object"` and arrays are `"object"` too). -/
def jsTypeof : Json → String
  | .null => "object"
  | .bool _ => "boolean"
  | .num _ => "number"
  | .str _ => "string"
  | .arr _ => "object"
  | .obj _ => "object"

def Json.isArr : Json → Bool
  | .arr _ => true
  | _ => false

def Json.isNull : Json → Bool
  | .null => true
  | _ => false

/-- `Array.isArray(x)` on a possibly-absent value. -/
def isArrOpt : Option Json → Bool
  | some j => j.isArr
  | none => false

/-- Decimal digits of `rem/den` (the fractional part), with fuel; every number
in the source has a terminating decimal expansion, so the fuel (20) is never
exhausted on reachable values. -/
def decDigits (rem den : Nat) : Nat → String
  | 0 => ""
  | fuel + 1 =>
    if rem == 0 then ""
    else
      let d := rem * 10 / den
      toString d ++ decDigits (rem * 10 % den) den fuel

/-- JavaScript number-to-string conversion for the terminating decimals that
occur in the source (e.g. `4.2`, `250`, `-32602`). -/
def formatNum (q : Rat) : String :=
  let sign := if q.num < 0 then "-" else ""
  let n := q.num.natAbs
  let ip := n / q.den
  let rem := n % q.den
  if rem == 0 then sign ++ toString ip
  else sign ++ toString ip ++ "." ++ decDigits rem q.den 20

mutual

/-- JavaScript string coercion (template-literal interpolation / property-key
coercion) of a value: strings are themselves, arrays join their elements with
commas (`null` elements become empty), objects print `[object Object]`. -/
def jsToString : Json → String
  | .null => "null"
  | .bool b => if b then "true" else "false"
  | .num q => formatNum q
  | .str s => s
  | .arr elems => jsToStringList elems
  | .obj _ => "[object Object]"

def jsToStringList : List Json → String
  | [] => ""
  | [Json.null] => ""
  | [j] => jsToString j
  | Json.null :: rest => "," ++ jsToStringList rest
  | j :: rest => jsToString j ++ "," ++ jsToStringList rest

end

/-- Hex digit for JSON string escaping of control characters. -/
def hexDigit (n : Nat) : String :=
  String.mk [(if n < 10 then Char.ofNat (48 + n) else Char.ofNat (87 + n))]

/-- Escape a single character as `JSON.stringify` does. -/
def escChar (c : Char) : String :=
  if c == '"' then "\\\""
  else if c == '\\' then "\\\\"
  else if c == '\n' then "\\n"
  else if c == '\t' then "\\t"
  else if c == '\r' then "\\r"
  else if c == Char.ofNat 8 then "\\b"
  else if c == Char.ofNat 12 then "\\f"
  else if c.toNat < 32 then "\\u00" ++ hexDigit (c.toNat / 16) ++ hexDigit (c.toNat % 16)
  else String.mk [c]

def escString (s : String) : String :=
  "\"" ++ String.join (s.data.map escChar) ++ "\""

mutual

/-- `JSON.stringify(value, null, 2)` — pretty printing with two-space
indentation, for the document shapes the source stringifies (objects there
have unique keys and no `undefined` members). `ind` is the current
indentation. -/
def stringify2 (ind : String) : Json → String
  | .null => "null"
  | .bool b => if b then "true" else "false"
  | .num q => formatNum q
  | .str s => escString s
  | .arr [] => "[]"
  | .arr (e :: es) =>
    "[\n" ++ stringifyItems (ind ++ "  ") (e :: es) ++ "\n" ++ ind ++ "]"
  | .obj [] => "\x7b\x7d"
  | .obj (f :: fs) =>
    "\x7b\n" ++ stringifyFields (ind ++ "  ") (f :: fs) ++ "\n" ++ ind ++ "\x7d"

def stringifyItems (ind : String) : List Json → String
  | [] => ""
  | [e] => ind ++ stringify2 ind e
  | e :: es => ind ++ stringify2 ind e ++ ",\n" ++ stringifyItems ind es

def stringifyFields (ind : String) : List (String × Json) → String
  | [] => ""
  | [(k, v)] => ind ++ escString k ++ ": " ++ stringify2 ind v
  | (k, v) :: fs => ind ++ escString k ++ ": " ++ stringify2 ind v ++ ",\n" ++ stringifyFields ind fs

end

/-- Prefix test on character lists (used to model `String.prototype.includes`;
all strings involved are ASCII, where code units and characters coincide). -/
def chPrefix : List Char → List Char → Bool
  | [], _ => true
  | _ :: _, [] => false
  | a :: as, b :: bs => a == b && chPrefix as bs

/-- `s.includes(sub)` on character lists. -/
def chIncludes : List Char → List Char → Bool
  | s, sub =>
    match s with
    | [] => chPrefix sub []
    | _ :: rest => chPrefix sub s || chIncludes rest sub

/-- JavaScript `s.includes(sub)`. -/
def jsIncludes (s sub : String) : Bool :=
  chIncludes s.data sub.data

theorem chPrefix_refl (l : List Char) : chPrefix l l = true := by
  induction l with
  | nil => rfl
  | cons a as ih => simp [chPrefix, ih]

theorem chIncludes_append_right (l₁ l₂ : List Char) :
    chIncludes (l₁ ++ l₂) l₂ = true := by
  induction l₁ with
  | nil =>
    cases l₂ with
    | nil => rfl
    | cons c rest => simp [chIncludes, chPrefix_refl]
  | cons a as ih =>
    simp [chIncludes, ih]

/-- A string contains every suffix obtained by appending it to a prefix. -/
theorem jsIncludes_append_right (a b : String) : jsIncludes (a ++ b) b = true := by
  show chIncludes (a.data ++ b.data) b.data = true
  exact chIncludes_append_right a.data b.data

/-- `toLowerCase()` on the ASCII strings involved (defined over the character
list so that it evaluates definitionally; agrees with JavaScript on ASCII). -/
def jsToLower (s : String) : String := String.mk (s.data.map Char.toLower)

/-! ## JSON-RPC response shapes (stdio variant, `part_000`) -/

/-- A JSON-RPC error response `{ jsonrpc, error: { code, message }, id }`. -/
def errResponse (code : Rat) (msg : String) (id : Json) : Json :=
  Json.obj [("jsonrpc", Json.str "2.0"),
    ("error", Json.obj [("code", Json.num code), ("message", Json.str msg)]),
    ("id", id)]

/-- A successful tool response: one text block in the MCP `content` envelope. -/
def textResponse (text : String) (id : Json) : Json :=
  Json.obj [("jsonrpc", Json.str "2.0"),
    ("result", Json.obj [("content",
      Json.arr [Json.obj [("type", Json.str "text"), ("text", Json.str text)]])]),
    ("id", id)]

/-- The `-32600` response sent for malformed envelopes (id is literally `null`). -/
def invalidRequestResponse : Json := errResponse (-32600) "Invalid Request" Json.null

/-- First-match association lookup, for the constant object literals inside the
handlers (their keys are unique, so first and last occurrence coincide). -/
def lookupFirst {α : Type} : List (String × α) → String → Option α
  | [], _ => none
  | (k', v) :: rest, k => if k' == k then some v else lookupFirst rest k

/-- The property names a plain object literal inherits from
`Object.prototype`.  Bracket access with one of these keys on the constant
tables (`workflows[workflowType]`, `nodeInfo[nodeName]`,
`documentation[nodeName]`, `templates[templateName]`) does NOT yield
`undefined`: it finds the inherited member, which is always truthy (a built-in
function, or for `__proto__` the prototype object itself), so the
`!x` / `|| fallback` guards are skipped and the handler proceeds with a value
that has none of the expected fields. -/
def objectPrototypeMembers : List String :=
  ["constructor", "__defineGetter__", "__defineSetter__", "hasOwnProperty",
   "__lookupGetter__", "__lookupSetter__", "isPrototypeOf",
   "propertyIsEnumerable", "toString", "valueOf", "__proto__",
   "toLocaleString"]

/-! ## Constant tables of the stdio tool handlers -/

/-- The constant 35-entry node-name list used by both `list_nodes`
(`handleListNodes`, local `nodes`) and `search_nodes` (`handleSearchNodes`,
local `allNodes`). -/
def allNodes : List String :=
  ["HTTP Request", "Function", "If", "Split In Batches", "Webhook",
   "Airtable", "Discord", "Slack", "Email", "Cron", "Manual Trigger",
   "Code", "Set", "Merge", "Filter", "Switch", "Wait", "Error Trigger",
   "Google Sheets", "Notion", "Zapier", "Pipedrive", "HubSpot",
   "Shopify", "Stripe", "GitHub", "GitLab", "Jira", "Trello",
   "Asana", "Monday.com", "ClickUp", "Linear", "Figma", "Canva"]

/-- A record of the `nodeInfo` table in `handleGetNodeInfo`:
description, category, properties, examples. -/
structure NodeInfo where
  description : String
  category : String
  properties : List String
  examples : List String

/-- The known-node table of `handleGetNodeInfo` (keys: HTTP Request, Function, If). -/
def nodeInfoTable : List (String × NodeInfo) :=
  [("HTTP Request",
    ⟨"Make HTTP requests to external APIs and services", "Core",
     ["URL", "Method", "Headers", "Body", "Authentication"],
     ["GET API data", "POST form data", "PUT update resource"]⟩),
   ("Function",
    ⟨"Execute custom JavaScript code to transform data", "Core",
     ["Code", "Input Data", "Output Format"],
     ["Data transformation", "Custom logic", "Data validation"]⟩),
   ("If",
    ⟨"Conditionally route workflow execution based on conditions", "Flow Control",
     ["Conditions", "True Path", "False Path"],
     ["Data filtering", "Error handling", "Branching logic"]⟩)]

/-- The generic fallback record substituted for unknown node names. -/
def fallbackNodeInfo : NodeInfo :=
  ⟨"A powerful n8n node for workflow automation", "General",
   ["Various configuration options"],
   ["Workflow automation", "Data processing", "Integration"]⟩

/-- A record of the `documentation` table in `handleGetNodeDocumentation`. -/
structure NodeDoc where
  title : String
  description : String
  parameters : List String
  examples : List String

def nodeDocTable : List (String × NodeDoc) :=
  [("HTTP Request",
    ⟨"HTTP Request Node Documentation",
     "The HTTP Request node allows you to make HTTP requests to external APIs and services.",
     ["URL: The endpoint URL to send the request to",
      "Method: HTTP method (GET, POST, PUT, DELETE, etc.)",
      "Headers: Custom headers to include in the request",
      "Body: Request body for POST/PUT requests",
      "Authentication: API keys, OAuth, or basic auth"],
     ["GET: Fetch data from a REST API",
      "POST: Send data to create a new resource",
      "PUT: Update an existing resource",
      "DELETE: Remove a resource"]⟩)]

def nodeCategories : List String :=
  ["Core", "Flow Control", "Communication", "Data", "Files",
   "CRM", "Marketing", "E-commerce", "Development", "Productivity",
   "Social Media", "Analytics", "Finance", "Design", "Project Management"]

/-! ## Simple tool handlers (stdio variant)

Each handler returns the `Json` document it passes to `sendMessage`;
`Except.error ()` models an uncaught runtime exception (no message sent, the
top-level `try`/`catch` in `main` logs it and moves on). -/

def listNodesText (category : Option String) (nodes : List String) : String :=
  "Available n8n nodes"
    ++ (match category with
        | some c => " in category \"" ++ c ++ "\""
        | none => "")
    ++ ":\n\n" ++ String.intercalate ", " nodes
    ++ "\n\nTotal: " ++ toString nodes.length ++ " nodes"

/-- `list_nodes`: case-insensitive substring filter of `allNodes` when a truthy
`category` is given.  A truthy non-string `category` makes
`category.toLowerCase()` throw inside the filter callback. -/
def handleListNodes (args : Option Json) (id : Json) : Except Unit Json :=
  match jsGetOpt args "category" with
  | some v =>
    if v.truthy then
      match v with
      | Json.str c =>
        .ok (textResponse
          (listNodesText (some c)
            (allNodes.filter (fun n => jsIncludes (jsToLower n) (jsToLower c)))) id)
      | _ => .error ()
    else .ok (textResponse (listNodesText none allNodes) id)
  | none => .ok (textResponse (listNodesText none allNodes) id)

/-- The `get_node_info` reply text for a nodeName and an info record. -/
def nodeInfoText (name : String) (info : NodeInfo) : String :=
  "**" ++ name ++ " Node**\n\n**Description:** " ++ info.description
    ++ "\n**Category:** " ++ info.category
    ++ "\n**Key Properties:** " ++ String.intercalate ", " info.properties
    ++ "\n**Common Use Cases:** " ++ String.intercalate ", " info.examples

/-- `get_node_info`: `args?.nodeName || 'HTTP Request'`, then
`nodeInfo[nodeName] || fallback`.  For a key inherited from
`Object.prototype` the lookup finds a truthy built-in instead of `undefined`,
the `||` fallback is skipped, and building the reply text throws at
`info.properties.join` (`undefined` has no `join`), so nothing is emitted. -/
def handleGetNodeInfo (args : Option Json) (id : Json) : Except Unit Json :=
  let nodeName : Json :=
    match jsGetOpt args "nodeName" with
    | some v => if v.truthy then v else Json.str "HTTP Request"
    | none => Json.str "HTTP Request"
  match lookupFirst nodeInfoTable (jsToString nodeName) with
  | some info => .ok (textResponse (nodeInfoText (jsToString nodeName) info) id)
  | none =>
    if jsToString nodeName ∈ objectPrototypeMembers then .error ()
    else .ok (textResponse (nodeInfoText (jsToString nodeName) fallbackNodeInfo) id)

/-- `search_nodes`: `args?.query || ''`, then the same case-insensitive
substring filter; a truthy non-string query makes `query.toLowerCase()` throw. -/
def handleSearchNodes (args : Option Json) (id : Json) : Except Unit Json :=
  let queryVal : Json :=
    match jsGetOpt args "query" with
    | some v => if v.truthy then v else Json.str ""
    | none => Json.str ""
  match queryVal with
  | Json.str q =>
    let matching := allNodes.filter (fun n => jsIncludes (jsToLower n) (jsToLower q))
    .ok (textResponse
      ("Search results for \"" ++ q ++ "\":\n\n"
        ++ (if matching.length > 0 then String.intercalate ", " matching else "No nodes found")
        ++ "\n\nFound " ++ toString matching.length ++ " matching nodes.") id)
  | _ => .error ()

/-- The `get_node_documentation` reply text for a doc record. -/
def nodeDocText (doc : NodeDoc) : String :=
  "# " ++ doc.title ++ "\n\n" ++ doc.description
    ++ "\n\n## Parameters\n" ++ String.intercalate "\n" (doc.parameters.map (fun p => "- " ++ p))
    ++ "\n\n## Examples\n" ++ String.intercalate "\n" (doc.examples.map (fun e => "- " ++ e))

/-- `get_node_documentation`: `documentation[nodeName] || fallback`.  As in
`get_node_info`, a key inherited from `Object.prototype` yields a truthy
built-in, the fallback is skipped, and the reply text throws at
`doc.parameters.map`, so nothing is emitted. -/
def handleGetNodeDocumentation (args : Option Json) (id : Json) : Except Unit Json :=
  let nodeName : Json :=
    match jsGetOpt args "nodeName" with
    | some v => if v.truthy then v else Json.str "HTTP Request"
    | none => Json.str "HTTP Request"
  match lookupFirst nodeDocTable (jsToString nodeName) with
  | some doc => .ok (textResponse (nodeDocText doc) id)
  | none =>
    if jsToString nodeName ∈ objectPrototypeMembers then .error ()
    else .ok (textResponse (nodeDocText
      ⟨jsToString nodeName ++ " Node Documentation",
       "Comprehensive documentation for this n8n node.",
       ["Various configuration parameters available"],
       ["Multiple use cases and examples available"]⟩) id)

/-- `list_node_categories`. -/
def handleListNodeCategories (id : Json) : Except Unit Json :=
  .ok (textResponse
    ("Available n8n node categories:\n\n" ++ String.intercalate ", " nodeCategories
      ++ "\n\nTotal: " ++ toString nodeCategories.length ++ " categories") id)

/-! ## `create_test_workflow` (stdio variant)

The five workflow documents are transcribed from the `workflows` object
literal.  Every connection entry in the source is `{ node, type: 'main',
index: 0 }` and every `connections` value is `{ main: [[entry]] }`, and every
node is `{ id, name, type, typeVersion, position, parameters }` in that field
order, so two helpers build them. -/

/-- The literal `4.2` (defined as an explicit rational so that it evaluates
definitionally). -/
def rat42 : Rat := ⟨21, 5, by decide, by norm_num⟩

/-- The literal `3.4`. -/
def rat34 : Rat := ⟨17, 5, by decide, by norm_num⟩

/-- A node object `{ id, name, type, typeVersion, position, parameters }`. -/
def mkNode (id name type : String) (typeVersion : Rat) (pos : List Rat)
    (parameters : List (String × Json)) : Json :=
  Json.obj [("id", Json.str id), ("name", Json.str name), ("type", Json.str type),
    ("typeVersion", Json.num typeVersion),
    ("position", Json.arr (pos.map Json.num)),
    ("parameters", Json.obj parameters)]

/-- A connections value `{ main: [[{ node, type: 'main', index: 0 }]] }`. -/
def mainTo (node : String) : Json :=
  Json.obj [("main", Json.arr [Json.arr
    [Json.obj [("node", Json.str node), ("type", Json.str "main"), ("index", Json.num 0)]]])]

def wfWebhookToSlack (customName : Json) : Json :=
  Json.obj [("name", customName),
    ("nodes", Json.arr
      [mkNode "webhook_1" "Webhook" "n8n-nodes-base.webhook" 1 [250, 300]
        [("httpMethod", Json.str "POST"), ("path", Json.str "test-webhook"),
         ("responseMode", Json.str "responseNode")],
       mkNode "slack_1" "Slack" "n8n-nodes-base.slack" 1 [450, 300]
        [("resource", Json.str "message"), ("operation", Json.str "post"),
         ("channel", Json.str "#general"),
         ("text", Json.str "=Test message from n8n workflow: \x7b\x7b$json.message || \"Hello from webhook!\"\x7d\x7d")],
       mkNode "respond_1" "Respond to Webhook" "n8n-nodes-base.respondToWebhook" 1 [650, 300]
        [("responseCode", Json.num 200), ("responseData", Json.str "json"),
         ("responseBody", Json.str "=\x7b\"status\": \"success\", \"message\": \"Workflow executed successfully\"\x7d")]]),
    ("connections", Json.obj
      [("Webhook", mainTo "Slack"), ("Slack", mainTo "Respond to Webhook")])]

def wfManualToHttp (customName : Json) : Json :=
  Json.obj [("name", customName),
    ("nodes", Json.arr
      [mkNode "manual_1" "Manual Trigger" "n8n-nodes-base.manualTrigger" 1 [250, 300] [],
       mkNode "http_1" "HTTP Request" "n8n-nodes-base.httpRequest" rat42 [450, 300]
        [("method", Json.str "GET"), ("url", Json.str "https://httpbin.org/json"),
         ("responseFormat", Json.str "json")],
       mkNode "set_1" "Set" "n8n-nodes-base.set" rat34 [650, 300]
        [("values", Json.obj [("string", Json.arr
          [Json.obj [("name", Json.str "processed_at"),
                     ("value", Json.str "=\x7b\x7b new Date().toISOString() \x7d\x7d")],
           Json.obj [("name", Json.str "status"), ("value", Json.str "completed")]])])]]),
    ("connections", Json.obj
      [("Manual Trigger", mainTo "HTTP Request"), ("HTTP Request", mainTo "Set")])]

def wfScheduleToEmail (customName : Json) : Json :=
  Json.obj [("name", customName),
    ("nodes", Json.arr
      [mkNode "schedule_1" "Schedule Trigger" "n8n-nodes-base.scheduleTrigger" 1 [250, 300]
        [("rule", Json.obj [("interval", Json.arr
          [Json.obj [("field", Json.str "minute"), ("value", Json.num 30)]])])],
       mkNode "email_1" "Email" "n8n-nodes-base.emailSend" 2 [450, 300]
        [("toEmail", Json.str "test@example.com"),
         ("subject", Json.str "Scheduled Test Email"),
         ("message", Json.str "This is a test email sent by n8n workflow at \x7b\x7b new Date().toISOString() \x7d\x7d")]]),
    ("connections", Json.obj [("Schedule Trigger", mainTo "Email")])]

def wfAiAgent (customName : Json) : Json :=
  Json.obj [("name", customName),
    ("nodes", Json.arr
      [mkNode "webhook_1" "Webhook" "n8n-nodes-base.webhook" 1 [250, 300]
        [("httpMethod", Json.str "POST"), ("path", Json.str "ai-chat"),
         ("responseMode", Json.str "responseNode")],
       mkNode "ai_1" "AI Agent" "@n8n/n8n-nodes-langchain.agent" 1 [450, 300]
        [("text", Json.str "=\x7b\x7b $json.query \x7d\x7d"),
         ("systemMessage", Json.str "You are a helpful AI assistant. Answer questions clearly and concisely.")],
       mkNode "respond_1" "Respond to Webhook" "n8n-nodes-base.respondToWebhook" 1 [650, 300]
        [("responseCode", Json.num 200), ("responseData", Json.str "json"),
         ("responseBody", Json.str "=\x7b\"response\": \"\x7b\x7b $json.text \x7d\x7d\"\x7d")]]),
    ("connections", Json.obj
      [("Webhook", mainTo "AI Agent"), ("AI Agent", mainTo "Respond to Webhook")])]

/-- The multi-line `jsCode` template literal of the `data_processing` workflow. -/
def dataProcessingJsCode : String :=
  "// Generate sample data\nconst data = [];\nfor (let i = 0; i < 5; i++) \x7b\n  data.push(\x7b\n    id: i + 1,\n    name: \x27Item \x27 + (i + 1),\n    value: Math.random() * 100,\n    timestamp: new Date().toISOString()\n  \x7d);\n\x7d\nreturn data;"

def wfDataProcessing (customName : Json) : Json :=
  Json.obj [("name", customName),
    ("nodes", Json.arr
      [mkNode "manual_1" "Manual Trigger" "n8n-nodes-base.manualTrigger" 1 [250, 300] [],
       mkNode "code_1" "Code" "n8n-nodes-base.code" 2 [450, 300]
        [("jsCode", Json.str dataProcessingJsCode)],
       mkNode "filter_1" "Filter" "n8n-nodes-base.if" 2 [650, 300]
        [("conditions", Json.obj [("number", Json.arr
          [Json.obj [("value1", Json.str "=\x7b\x7b $json.value \x7d\x7d"),
                     ("operation", Json.str "larger"), ("value2", Json.num 50)]])])],
       mkNode "set_1" "Set" "n8n-nodes-base.set" rat34 [850, 300]
        [("values", Json.obj [("string", Json.arr
          [Json.obj [("name", Json.str "processed"), ("value", Json.str "true")],
           Json.obj [("name", Json.str "filtered_count"),
                     ("value", Json.str "=\x7b\x7b $json.length \x7d\x7d")]])])]]),
    ("connections", Json.obj
      [("Manual Trigger", mainTo "Code"), ("Code", mainTo "Filter"), ("Filter", mainTo "Set")])]

/-- The `workflows` table of `handleCreateTestWorkflow` (its five keys). -/
def testWorkflows (customName : Json) : List (String × Json) :=
  [("webhook_to_slack", wfWebhookToSlack customName),
   ("manual_to_http", wfManualToHttp customName),
   ("schedule_to_email", wfScheduleToEmail customName),
   ("ai_agent", wfAiAgent customName),
   ("data_processing", wfDataProcessing customName)]

/-- The success text of `create_test_workflow` (`workflow.nodes.length` and
`Object.keys(workflow.connections).length` computed on the table entry, which
always has an array `nodes` and an object `connections`). -/
def createTestWorkflowText (wtKey : String) (workflow : Json) : String :=
  "\u00E2\u0153\u2026 Created test workflow: \""
    ++ jsToString ((jsGet workflow "name").getD Json.null) ++ "\""
    ++ "\n\n**Workflow Type:** " ++ wtKey
    ++ "\n**Nodes:** "
    ++ toString (match jsGet workflow "nodes" with
                 | some (Json.arr l) => l.length
                 | _ => 0)
    ++ "\n**Connections:** "
    ++ toString (jsKeys ((jsGet workflow "connections").getD Json.null)).length
    ++ "\n\n**Workflow JSON:**\n\x60\x60\x60json\n" ++ stringify2 "" workflow
    ++ "\n\x60\x60\x60\n\n**Testing Instructions:**\n1. Copy the JSON above\n2. Use validate_workflow to check for issues\n3. Import into n8n instance\n4. Test execution"

/-- `create_test_workflow`: `args?.workflowType || 'webhook_to_slack'`,
`args?.customName` defaulting to `Test Workflow - ${workflowType}`, then
`workflows[workflowType]`.  Own keys yield the workflow; keys inherited from
`Object.prototype` yield a truthy built-in, so `!workflow` fails and building
the reply text throws at `workflow.nodes.length` (`undefined` has no
`length`), emitting nothing; all other keys yield the `-32602` error
interpolating the key. -/
def handleCreateTestWorkflow (args : Option Json) (id : Json) : Except Unit Json :=
  let workflowType : Json :=
    match jsGetOpt args "workflowType" with
    | some v => if v.truthy then v else Json.str "webhook_to_slack"
    | none => Json.str "webhook_to_slack"
  let wtKey := jsToString workflowType
  let customName : Json :=
    match jsGetOpt args "customName" with
    | some v => if v.truthy then v else Json.str ("Test Workflow - " ++ wtKey)
    | none => Json.str ("Test Workflow - " ++ wtKey)
  match lookupFirst (testWorkflows customName) wtKey with
  | some workflow => .ok (textResponse (createTestWorkflowText wtKey workflow) id)
  | none =>
    if wtKey ∈ objectPrototypeMembers then .error ()
    else .ok (errResponse (-32602) ("Unknown workflow type: " ++ wtKey) id)

/-! ## `validate_workflow` (stdio variant)

`handleValidateWorkflow` accumulates error and warning strings and then sends
one report.  Because no message is sent before the node-validation loop, a
workflow whose `nodes` is truthy but not an array (so `nodes.forEach` throws),
or whose `nodes` array contains `null` (so `node.id` throws), produces no
response at all; this is `validationThrows`.  Otherwise the lists below are
exactly the accumulated arrays, in push order. -/

/-- `typeof` of a possibly-absent value. -/
def jsTypeofOpt : Option Json → String
  | none => "undefined"
  | some j => jsTypeof j

/-- The three basic structure checks, in source order: name truthy, nodes a
truthy array, connections truthy with `typeof === 'object'`. -/
def structureErrors (w : Json) : List String :=
  (if !truthyOpt (jsGet w "name") then ["Missing workflow name"] else [])
  ++ (if !truthyOpt (jsGet w "nodes") || !isArrOpt (jsGet w "nodes")
      then ["Missing or invalid nodes array"] else [])
  ++ (if !truthyOpt (jsGet w "connections") || !(jsTypeofOpt (jsGet w "connections") == "object")
      then ["Missing or invalid connections object"] else [])

/-- Per-node error checks (`id`, `name`, `type`, `position`), in index order. -/
def nodeErrors (nodes : List Json) : List String :=
  (nodes.enum.map (fun (p : Nat × Json) =>
    let i := p.1
    let node := p.2
    (if !truthyOpt (jsGet node "id")
     then ["Node " ++ toString i ++ ": Missing ID"] else [])
    ++ (if !truthyOpt (jsGet node "name")
        then ["Node " ++ toString i ++ ": Missing name"] else [])
    ++ (if !truthyOpt (jsGet node "type")
        then ["Node " ++ toString i ++ ": Missing type"] else [])
    ++ (if !truthyOpt (jsGet node "position") || !isArrOpt (jsGet node "position")
          || !((match jsGet node "position" with
                | some (Json.arr l) => l.length
                | _ => 0) == 2)
        then ["Node " ++ toString i ++ ": Invalid position (should be [x, y])"] else []))).flatten

/-- Per-node warning: a falsy `typeVersion` contributes exactly one warning. -/
def nodeWarnings (nodes : List Json) : List String :=
  nodes.enum.filterMap (fun (p : Nat × Json) =>
    if !truthyOpt (jsGet p.2 "typeVersion")
    then some ("Node " ++ toString p.1 ++ ": Missing typeVersion (recommended)")
    else none)

/-- Connection checks: for each own key of a truthy `connections`, the value
must have `typeof === 'object'` (note `typeof null === 'object'`). -/
def connectionErrors (w : Json) : List String :=
  match jsGet w "connections" with
  | some conns =>
    if conns.truthy then
      (jsEntries conns).filterMap (fun (p : String × Json) =>
        if !(jsTypeof p.2 == "object")
        then some ("Invalid connections for node: " ++ p.1) else none)
    else []
  | none => []

/-- The handler throws (and thus reports nothing) iff `workflow.nodes` is
truthy and either is not an array (`nodes.forEach` is not a function) or
contains a `null` element (`node.id` on `null` throws). -/
def validationThrows (w : Json) : Bool :=
  truthyOpt (jsGet w "nodes") &&
    (match jsGet w "nodes" with
     | some (Json.arr l) => l.any (fun n => n.isNull)
     | _ => true)

/-- The accumulated `errors` array (meaningful when `validationThrows` is
false): structure errors, then per-node errors, then connection errors. -/
def validationErrors (w : Json) : List String :=
  structureErrors w
  ++ (if truthyOpt (jsGet w "nodes") then
        match jsGet w "nodes" with
        | some (Json.arr l) => nodeErrors l
        | _ => []
      else [])
  ++ connectionErrors w

/-- The accumulated `warnings` array. -/
def validationWarnings (w : Json) : List String :=
  if truthyOpt (jsGet w "nodes") then
    match jsGet w "nodes" with
    | some (Json.arr l) => nodeWarnings l
    | _ => []
  else []

/-- `errors.length === 0 ? 'VALID' : 'INVALID'`. -/
def validationStatus (w : Json) : String :=
  if (validationErrors w).length == 0 then "VALID" else "INVALID"

/-- The `summary` object: `workflow.nodes?.length || 0` and
`Object.keys(workflow.connections || {}).length`. -/
def validationSummary (w : Json) : Json :=
  Json.obj [("status", Json.str (validationStatus w)),
    ("errors", Json.num ((validationErrors w).length : Nat)),
    ("warnings", Json.num ((validationWarnings w).length : Nat)),
    ("nodes", Json.num ((match jsGet w "nodes" with
      | some (Json.arr l) => l.length
      | some (Json.str s) => s.length
      | _ => 0) : Nat)),
    ("connections", Json.num ((match jsGet w "connections" with
      | some c => if c.truthy then (jsKeys c).length else 0
      | none => 0) : Nat))]

/-- The report text (the emoji of the source file are stored there as
double-encoded UTF-8; the escapes below reproduce the file's exact
characters). -/
def validationText (w : Json) : String :=
  "## Workflow Validation Results\n\n**Status:** " ++ validationStatus w
  ++ "\n**Summary:** " ++ stringify2 "" (validationSummary w)
  ++ "\n\n"
  ++ (if (validationErrors w).length > 0
      then "**Errors:**\n"
        ++ String.intercalate "\n" ((validationErrors w).map (fun e => "- " ++ e)) ++ "\n\n"
      else "")
  ++ (if (validationWarnings w).length > 0
      then "**Warnings:**\n"
        ++ String.intercalate "\n" ((validationWarnings w).map (fun x => "- " ++ x)) ++ "\n\n"
      else "")
  ++ "**Recommendations:**\n"
  ++ (if (validationErrors w).length == 0
      then "- âœ… Workflow structure is valid\n- ðŸ§ª Ready for testing in n8n\n- ðŸ“ Consider adding error handling nodes"
      else "- âŒ Fix errors before testing\n- ðŸ”§ Review node configurations\n- ðŸ“š Check n8n documentation for node types")

/-- `validate_workflow`: a falsy `args?.workflow` yields the `-32602` error;
otherwise the report is sent unless the node loop throws. -/
def handleValidateWorkflow (args : Option Json) (id : Json) : Except Unit Json :=
  match jsGetOpt args "workflow" with
  | some w =>
    if w.truthy then
      if validationThrows w then .error ()
      else .ok (textResponse (validationText w) id)
    else .ok (errResponse (-32602) "Workflow object is required" id)
  | none => .ok (errResponse (-32602) "Workflow object is required" id)

/-! ## `get_workflow_template` (stdio variant) -/

structure WorkflowTemplate where
  name : String
  description : String
  category : String
  difficulty : String
  nodes : Rat
  workflow : Json

def tplWebhookSlack : WorkflowTemplate :=
  ⟨"Webhook to Slack Notification",
   "Simple webhook that sends notifications to Slack",
   "Communication", "Beginner", 3,
   Json.obj [("name", Json.str "Webhook to Slack"),
     ("nodes", Json.arr
       [mkNode "webhook_1" "Webhook" "n8n-nodes-base.webhook" 1 [250, 300]
         [("httpMethod", Json.str "POST"), ("path", Json.str "slack-notify"),
          ("responseMode", Json.str "responseNode")],
        mkNode "slack_1" "Slack" "n8n-nodes-base.slack" 1 [450, 300]
         [("resource", Json.str "message"), ("operation", Json.str "post"),
          ("channel", Json.str "#general"),
          ("text", Json.str "=New notification: \x7b\x7b$json.message || \"Hello from webhook!\"\x7d\x7d")],
        mkNode "respond_1" "Respond to Webhook" "n8n-nodes-base.respondToWebhook" 1 [650, 300]
         [("responseCode", Json.num 200), ("responseData", Json.str "json"),
          ("responseBody", Json.str "=\x7b\"status\": \"sent\"\x7d")]]),
     ("connections", Json.obj
       [("Webhook", mainTo "Slack"), ("Slack", mainTo "Respond to Webhook")])]⟩

def tplEmailProcessor : WorkflowTemplate :=
  ⟨"Email Processing Workflow",
   "Process incoming emails and extract data",
   "Data Processing", "Intermediate", 4,
   Json.obj [("name", Json.str "Email Processor"),
     ("nodes", Json.arr
       [mkNode "email_1" "Email Read IMAP" "n8n-nodes-base.emailReadImap" 1 [250, 300]
         [("mailbox", Json.str "INBOX"), ("readToEnd", Json.bool true)],
        mkNode "filter_1" "Filter" "n8n-nodes-base.if" 2 [450, 300]
         [("conditions", Json.obj [("string", Json.arr
           [Json.obj [("value1", Json.str "=\x7b\x7b $json.subject \x7d\x7d"),
                      ("operation", Json.str "contains"),
                      ("value2", Json.str "important")]])])],
        mkNode "set_1" "Set" "n8n-nodes-base.set" rat34 [650, 300]
         [("values", Json.obj [("string", Json.arr
           [Json.obj [("name", Json.str "processed_at"),
                      ("value", Json.str "=\x7b\x7b new Date().toISOString() \x7d\x7d")],
            Json.obj [("name", Json.str "priority"), ("value", Json.str "high")]])])],
        mkNode "slack_1" "Slack" "n8n-nodes-base.slack" 1 [850, 300]
         [("resource", Json.str "message"), ("operation", Json.str "post"),
          ("channel", Json.str "#alerts"),
          ("text", Json.str "=Important email received: \x7b\x7b$json.subject\x7d\x7d")]]),
     ("connections", Json.obj
       [("Email Read IMAP", mainTo "Filter"), ("Filter", mainTo "Set"),
        ("Set", mainTo "Slack")])]⟩

def workflowTemplates : List (String × WorkflowTemplate) :=
  [("webhook_slack", tplWebhookSlack), ("email_processor", tplEmailProcessor)]

def workflowTemplateText (t : WorkflowTemplate) : String :=
  "## Workflow Template: " ++ t.name
  ++ "\n\n**Description:** " ++ t.description
  ++ "\n**Category:** " ++ t.category
  ++ "\n**Difficulty:** " ++ t.difficulty
  ++ "\n**Nodes:** " ++ formatNum t.nodes
  ++ "\n\n**Workflow JSON:**\n\x60\x60\x60json\n" ++ stringify2 "" t.workflow
  ++ "\n\x60\x60\x60\n\n**Usage:**\n1. Copy the JSON above\n2. Import into n8n\n3. Configure credentials\n4. Test execution"

/-- The `name` property of the `Object.prototype` member fetched for `key`:
`constructor` is the `Object` function (named `Object`), `__proto__` is the
prototype object itself (whose absent `name` interpolates as `undefined`),
every other member is a built-in function named after its key. -/
def inheritedMemberName (key : String) : String :=
  if key == "constructor" then "Object"
  else if key == "__proto__" then "undefined"
  else key

/-- The `get_workflow_template` reply text when `templates[templateName]`
finds an `Object.prototype` member: `!template` fails, and — uniquely among
the four lookups — the reply builds without any member access on `undefined`:
`template.description`/`category`/`difficulty`/`nodes` interpolate as
`undefined`, and `JSON.stringify(template.workflow, null, 2)` is `undefined`,
which string concatenation renders as `undefined` too. -/
def inheritedTemplateText (key : String) : String :=
  "## Workflow Template: " ++ inheritedMemberName key
  ++ "\n\n**Description:** undefined\n**Category:** undefined\n**Difficulty:** undefined\n**Nodes:** undefined\n\n**Workflow JSON:**\n\x60\x60\x60json\nundefined\n\x60\x60\x60\n\n**Usage:**\n1. Copy the JSON above\n2. Import into n8n\n3. Configure credentials\n4. Test execution"

/-- `get_workflow_template`: `args?.templateName || 'webhook_slack'`, then
`templates[templateName]`: own keys yield the template, keys inherited from
`Object.prototype` yield the degenerate success text above, all other keys
yield the `-32602` error interpolating the key. -/
def handleGetWorkflowTemplate (args : Option Json) (id : Json) : Except Unit Json :=
  let templateName : Json :=
    match jsGetOpt args "templateName" with
    | some v => if v.truthy then v else Json.str "webhook_slack"
    | none => Json.str "webhook_slack"
  let key := jsToString templateName
  match lookupFirst workflowTemplates key with
  | some t => .ok (textResponse (workflowTemplateText t) id)
  | none =>
    if key ∈ objectPrototypeMembers then
      .ok (textResponse (inheritedTemplateText key) id)
    else .ok (errResponse (-32602) ("Unknown template: " ++ key) id)

/-! ## Tool catalog, dispatcher and request loop (stdio variant)

`MCPServer` has a single instance field, `this.tools`, assigned once in the
constructor and never written afterwards (no method of the class assigns to
`this`), so every method is modelled as a reader of the state. -/

/-- `this.tools`: the constant 8-entry tool-descriptor array built by the
constructor. -/
def serverToolsJson : Json := Json.arr
  [Json.obj [("name", Json.str "list_nodes"),
    ("description", Json.str "List available n8n nodes"),
    ("inputSchema", Json.obj [("type", Json.str "object"),
      ("properties", Json.obj [("category", Json.obj [("type", Json.str "string"),
        ("description", Json.str "Filter by node category")])])])],
   Json.obj [("name", Json.str "get_node_info"),
    ("description", Json.str "Get detailed information about a specific n8n node"),
    ("inputSchema", Json.obj [("type", Json.str "object"),
      ("properties", Json.obj [("nodeName", Json.obj [("type", Json.str "string"),
        ("description", Json.str "Name of the node to get information for")])]),
      ("required", Json.arr [Json.str "nodeName"])])],
   Json.obj [("name", Json.str "search_nodes"),
    ("description", Json.str "Search for n8n nodes by keyword"),
    ("inputSchema", Json.obj [("type", Json.str "object"),
      ("properties", Json.obj [("query", Json.obj [("type", Json.str "string"),
        ("description", Json.str "Search query")])]),
      ("required", Json.arr [Json.str "query"])])],
   Json.obj [("name", Json.str "get_node_documentation"),
    ("description", Json.str "Get detailed documentation for a specific n8n node"),
    ("inputSchema", Json.obj [("type", Json.str "object"),
      ("properties", Json.obj [("nodeName", Json.obj [("type", Json.str "string"),
        ("description", Json.str "Name of the node to get documentation for")])]),
      ("required", Json.arr [Json.str "nodeName"])])],
   Json.obj [("name", Json.str "list_node_categories"),
    ("description", Json.str "List all available n8n node categories"),
    ("inputSchema", Json.obj [("type", Json.str "object"),
      ("properties", Json.obj [])])],
   Json.obj [("name", Json.str "create_test_workflow"),
    ("description", Json.str "Create a test workflow for validation and testing"),
    ("inputSchema", Json.obj [("type", Json.str "object"),
      ("properties", Json.obj [("workflowType", Json.obj [("type", Json.str "string"),
        ("description", Json.str "Type of test workflow to create"),
        ("enum", Json.arr [Json.str "webhook_to_slack", Json.str "manual_to_http",
          Json.str "schedule_to_email", Json.str "ai_agent", Json.str "data_processing"])]),
        ("customName", Json.obj [("type", Json.str "string"),
          ("description", Json.str "Custom name for the workflow")])]),
      ("required", Json.arr [Json.str "workflowType"])])],
   Json.obj [("name", Json.str "validate_workflow"),
    ("description", Json.str "Validate a workflow structure and configuration"),
    ("inputSchema", Json.obj [("type", Json.str "object"),
      ("properties", Json.obj [("workflow", Json.obj [("type", Json.str "object"),
        ("description", Json.str "Workflow object to validate")])]),
      ("required", Json.arr [Json.str "workflow"])])],
   Json.obj [("name", Json.str "get_workflow_template"),
    ("description", Json.str "Get a pre-built workflow template"),
    ("inputSchema", Json.obj [("type", Json.str "object"),
      ("properties", Json.obj [("templateName", Json.obj [("type", Json.str "string"),
        ("description", Json.str "Name of the template to get"),
        ("enum", Json.arr [Json.str "webhook_slack", Json.str "email_processor",
          Json.str "data_sync", Json.str "ai_chatbot", Json.str "file_processor"])])]),
      ("required", Json.arr [Json.str "templateName"])])]]

/-- The server's mutable state: the one instance field of `MCPServer`. -/
structure MCPState where
  tools : Json

/-- The state right after `new MCPServer()`. -/
def initState : MCPState := ⟨serverToolsJson⟩

def handleInitialize (id : Json) : Except Unit Json :=
  .ok (Json.obj [("jsonrpc", Json.str "2.0"),
    ("result", Json.obj [("protocolVersion", Json.str "2024-11-05"),
      ("capabilities", Json.obj [("tools", Json.obj [])]),
      ("serverInfo", Json.obj [("name", Json.str "n8n-mcp-server"),
        ("version", Json.str "2.7.20")])]),
    ("id", id)])

def handleToolsList (st : MCPState) (id : Json) : Except Unit Json :=
  .ok (Json.obj [("jsonrpc", Json.str "2.0"),
    ("result", Json.obj [("tools", st.tools)]),
    ("id", id)])

def handleResourcesList (id : Json) : Except Unit Json :=
  .ok (Json.obj [("jsonrpc", Json.str "2.0"),
    ("result", Json.obj [("resources", Json.arr [])]),
    ("id", id)])

def handlePromptsList (id : Json) : Except Unit Json :=
  .ok (Json.obj [("jsonrpc", Json.str "2.0"),
    ("result", Json.obj [("prompts", Json.arr [])]),
    ("id", id)])

/-- `handleToolsCall`: destructuring `params` throws when it is `undefined` or
`null`; an unknown (or non-string) tool name is `-32601`. -/
def handleToolsCall (params : Option Json) (id : Json) : Except Unit Json :=
  match params with
  | none => .error ()
  | some Json.null => .error ()
  | some p =>
    let args := jsGet p "arguments"
    match jsGet p "name" with
    | some (Json.str "list_nodes") => handleListNodes args id
    | some (Json.str "get_node_info") => handleGetNodeInfo args id
    | some (Json.str "search_nodes") => handleSearchNodes args id
    | some (Json.str "get_node_documentation") => handleGetNodeDocumentation args id
    | some (Json.str "list_node_categories") => handleListNodeCategories id
    | some (Json.str "create_test_workflow") => handleCreateTestWorkflow args id
    | some (Json.str "validate_workflow") => handleValidateWorkflow args id
    | some (Json.str "get_workflow_template") => handleGetWorkflowTemplate args id
    | _ => .ok (errResponse (-32601) "Tool not found" id)

/-- `MCPServer.handleRequest`: destructuring a `null` request throws; a
missing-or-wrong `jsonrpc` is answered `-32600` with `id: null` BEFORE the
notification check; a message without `id` gets no response whatever its
method; otherwise the method switch runs (`-32601` by default).
`Except.ok none` means no message was sent. -/
def handleRequest (st : MCPState) (req : Json) : Except Unit (Option Json) :=
  match req with
  | Json.null => .error ()
  | _ =>
    let jsonrpc := jsGet req "jsonrpc"
    let method := jsGet req "method"
    let params := jsGet req "params"
    let idField := jsGet req "id"
    if !truthyOpt jsonrpc || !jsIs jsonrpc (Json.str "2.0") then
      .ok (some invalidRequestResponse)
    else
      match idField with
      | none => .ok none
      | some id =>
        match method with
        | some (Json.str "initialize") => (handleInitialize id).map some
        | some (Json.str "tools/list") => (handleToolsList st id).map some
        | some (Json.str "tools/call") => (handleToolsCall params id).map some
        | some (Json.str "resources/list") => (handleResourcesList id).map some
        | some (Json.str "prompts/list") => (handlePromptsList id).map some
        | _ => .ok (some (errResponse (-32601) "Method not found" id))

/-- The `readline` loop of `main`: each parsed line is handed to
`handleRequest` inside `try`/`catch` (a thrown handler emits nothing), and the
state passed to the rest of the stream is the state after the request — which
is the incoming state, since no method of `MCPServer` assigns to `this`.
Returns the final state and the emitted messages. -/
def runServer : MCPState → List Json → MCPState × List Json
  | st, [] => (st, [])
  | st, r :: rest =>
    let out : List Json :=
      match handleRequest st r with
      | .ok (some m) => [m]
      | .ok none => []
      | .error () => []
    ((runServer st rest).1, out ++ (runServer st rest).2)

/-! ## Vercel HTTP variant (`part_001`)

The HTTP variant duplicates the dispatcher with an authentication gate.  An
`HttpRequest` carries the fields the handler reads; `HttpResponse.body = none`
models `res.status(...).end()`.  `slice(7)` is only reached on headers that
start with `'Bearer '` — seven ASCII UTF-16 units — where it agrees exactly
with dropping seven characters; `jsTrim` implements the full ECMAScript
`TrimString` whitespace set. -/

/-- `s.startsWith(p)` over character lists (evaluates definitionally; agrees
with JavaScript on the ASCII strings involved). -/
def jsStartsWith (s p : String) : Bool := chPrefix p.data s.data

/-- The ECMAScript `TrimString` whitespace set: WhiteSpace (TAB, VT, FF, SP,
NBSP, ZWNBSP and the Unicode space separators) plus LineTerminator (LF, CR,
LS, PS). -/
def jsWhitespace (c : Char) : Bool :=
  let n := c.toNat
  n == 0x09 || n == 0x0A || n == 0x0B || n == 0x0C || n == 0x0D || n == 0x20
    || n == 0xA0 || n == 0x1680 || (0x2000 ≤ n && n ≤ 0x200A)
    || n == 0x2028 || n == 0x2029 || n == 0x202F || n == 0x205F || n == 0x3000
    || n == 0xFEFF

def chTrimLeft : List Char → List Char
  | [] => []
  | c :: rest => if jsWhitespace c then chTrimLeft rest else c :: rest

/-- `s.trim()`: strip leading and trailing ECMAScript whitespace. -/
def jsTrim (s : String) : String :=
  String.mk (chTrimLeft (chTrimLeft s.data.reverse).reverse)

structure HttpRequest where
  method : String
  url : String
  authorization : Option String
  body : Option Json

structure HttpResponse where
  status : Nat
  body : Option Json

namespace Vercel

/-- The 3-entry `this.tools` of the HTTP variant (drifted from the stdio
catalog: only `list_nodes`, `get_node_info`, `search_nodes`). -/
def toolsJson : Json := Json.arr
  [Json.obj [("name", Json.str "list_nodes"),
    ("description", Json.str "List available n8n nodes"),
    ("inputSchema", Json.obj [("type", Json.str "object"),
      ("properties", Json.obj [("category", Json.obj [("type", Json.str "string"),
        ("description", Json.str "Filter by node category")])])])],
   Json.obj [("name", Json.str "get_node_info"),
    ("description", Json.str "Get detailed information about a specific n8n node"),
    ("inputSchema", Json.obj [("type", Json.str "object"),
      ("properties", Json.obj [("nodeName", Json.obj [("type", Json.str "string"),
        ("description", Json.str "Name of the node to get information for")])]),
      ("required", Json.arr [Json.str "nodeName"])])],
   Json.obj [("name", Json.str "search_nodes"),
    ("description", Json.str "Search for n8n nodes by keyword"),
    ("inputSchema", Json.obj [("type", Json.str "object"),
      ("properties", Json.obj [("query", Json.obj [("type", Json.str "string"),
        ("description", Json.str "Search query")])]),
      ("required", Json.arr [Json.str "query"])])]]

/-- `AUTH_TOKEN = N8N_MCP_AUTH_TOKEN` when the latter is set (module prologue). -/
def effectiveAuthToken (n8nMcpAuthToken authToken : Option String) : Option String :=
  match n8nMcpAuthToken with
  | some t => some t
  | none => authToken

/-- `MCPServer.validateAuth`: a falsy (absent or empty) header fails, a header
not starting with `'Bearer '` fails, else the trimmed remainder is compared
(`===`) with `process.env.AUTH_TOKEN` (comparison with an unset variable is
always false). -/
def validateAuth (authToken : Option String) (req : HttpRequest) : Bool :=
  match req.authorization with
  | none => false
  | some h =>
    if h == "" then false
    else if !(jsStartsWith h "Bearer ") then false
    else
      match authToken with
      | some t => jsTrim (h.drop 7) == t
      | none => false

/-- `x || null` for the `id` echoed by the 401 response. -/
def jsOrNull (o : Option Json) : Json :=
  match o with
  | some v => if v.truthy then v else Json.null
  | none => Json.null

/-- `handleToolsCall` (HTTP variant): destructuring `req.body.params` throws
when it is `undefined` or `null`; the three canned tool texts interpolate
their argument with JavaScript string coercion. -/
def handleToolsCall (body : Json) (id : Json) : Except Unit HttpResponse :=
  match jsGet body "params" with
  | none => .error ()
  | some Json.null => .error ()
  | some p =>
    let args := jsGet p "arguments"
    match jsGet p "name" with
    | some (Json.str "list_nodes") =>
      .ok ⟨200, some (textResponse "Available n8n nodes: HTTP Request, Function, If, Split In Batches, Webhook, Airtable, Discord, Slack, and many more..." id)⟩
    | some (Json.str "get_node_info") =>
      let nodeName : Json :=
        match jsGetOpt args "nodeName" with
        | some v => if v.truthy then v else Json.str "HTTP Request"
        | none => Json.str "HTTP Request"
      .ok ⟨200, some (textResponse ("Information about " ++ jsToString nodeName ++ ": This node allows you to make HTTP requests to external APIs and services.") id)⟩
    | some (Json.str "search_nodes") =>
      let queryVal : Json :=
        match jsGetOpt args "query" with
        | some v => if v.truthy then v else Json.str ""
        | none => Json.str ""
      .ok ⟨200, some (textResponse ("Search results for \"" ++ jsToString queryVal ++ "\": Found multiple nodes matching your query.") id)⟩
    | _ => .ok ⟨400, some (errResponse (-32601) "Tool not found" id)⟩

/-- `MCPServer.handleMCPRequest`: destructuring an absent or `null` body
throws; a missing-or-wrong `jsonrpc` is answered 400/`-32600` with `id: null`
BEFORE the notification check; a message without `id` gets `200` with no body;
otherwise the method switch runs. -/
def handleMCPRequest (body : Option Json) : Except Unit HttpResponse :=
  match body with
  | none => .error ()
  | some Json.null => .error ()
  | some b =>
    let jsonrpc := jsGet b "jsonrpc"
    let method := jsGet b "method"
    let idField := jsGet b "id"
    if !truthyOpt jsonrpc || !jsIs jsonrpc (Json.str "2.0") then
      .ok ⟨400, some invalidRequestResponse⟩
    else
      match idField with
      | none => .ok ⟨200, none⟩
      | some id =>
        match method with
        | some (Json.str "initialize") =>
          .ok ⟨200, some (Json.obj [("jsonrpc", Json.str "2.0"),
            ("result", Json.obj [("protocolVersion", Json.str "2024-11-05"),
              ("capabilities", Json.obj [("tools", Json.obj [])]),
              ("serverInfo", Json.obj [("name", Json.str "n8n-mcp-server"),
                ("version", Json.str "2.7.20")])]),
            ("id", id)])⟩
        | some (Json.str "tools/list") =>
          .ok ⟨200, some (Json.obj [("jsonrpc", Json.str "2.0"),
            ("result", Json.obj [("tools", toolsJson)]),
            ("id", id)])⟩
        | some (Json.str "tools/call") => handleToolsCall b id
        | some (Json.str "resources/list") =>
          .ok ⟨200, some (Json.obj [("jsonrpc", Json.str "2.0"),
            ("result", Json.obj [("resources", Json.arr [])]),
            ("id", id)])⟩
        | some (Json.str "prompts/list") =>
          .ok ⟨200, some (Json.obj [("jsonrpc", Json.str "2.0"),
            ("result", Json.obj [("prompts", Json.arr [])]),
            ("id", id)])⟩
        | _ => .ok ⟨400, some (errResponse (-32601) "Method not found" id)⟩

/-- `GET /health` body (no auth; `now` stands for `new Date().toISOString()`). -/
def healthBody (now : String) : Json :=
  Json.obj [("status", Json.str "ok"),
    ("message", Json.str "n8n MCP server is running"),
    ("deployment", Json.str "vercel"),
    ("timestamp", Json.str now),
    ("version", Json.str "2.7.20"),
    ("authentication", Json.str "required_for_mcp")]

/-- The 401 body sent when `validateAuth` fails. -/
def auth401Body (id : Json) : Json :=
  Json.obj [("jsonrpc", Json.str "2.0"),
    ("error", Json.obj [("code", Json.num (-32001)),
      ("message", Json.str "Unauthorized - Valid Bearer token required")]),
    ("id", id)]

/-- The default informational body for non-OPTIONS/health/POST requests. -/
def defaultInfoBody : Json :=
  Json.obj [("message", Json.str "n8n MCP Server"),
    ("status", Json.str "running"),
    ("deployment", Json.str "vercel"),
    ("version", Json.str "2.7.20"),
    ("authentication", Json.str "required_for_mcp"),
    ("endpoints", Json.obj [("health", Json.str "/health (GET)"),
      ("mcp", Json.str "/ (POST with Authorization: Bearer <token>)")]),
    ("documentation", Json.str "https://github.com/czlonkowski/n8n-mcp")]

/-- The exported request handler (`module.exports`).  The Bool records whether
`handleMCPRequest` was invoked.  CORS headers (set on every response) are not
modelled; the `catch` branch, which converts an uncaught exception into a 500
response echoing the runtime error message, is left as `Except.error ()` since
no claim depends on that body. -/
def handler (authToken : Option String) (now : String) (req : HttpRequest) :
    Except Unit (HttpResponse × Bool) :=
  if req.method == "OPTIONS" then
    .ok (⟨200, none⟩, false)
  else if req.method == "GET" && req.url == "/health" then
    .ok (⟨200, some (healthBody now)⟩, false)
  else if req.method == "POST" then
    if !validateAuth authToken req then
      .ok (⟨401, some (auth401Body (jsOrNull (jsGetOpt req.body "id")))⟩, false)
    else
      (handleMCPRequest req.body).map (fun r => (r, true))
  else
    .ok (⟨200, some defaultInfoBody⟩, false)

end Vercel

/-! ## Claims -/

/-- C1: for every incoming message (an object with any fields) whose `jsonrpc`
field is missing or not strictly equal to `"2.0"`, both dispatchers respond
with exactly the `-32600` / `Invalid Request` error object with `id: null`
(the HTTP variant with status 400), regardless of the message's `method`,
`params`, or `id`. -/
theorem c1_malformed_envelope_rejected (st : MCPState) (fields : List (String × Json))
    (h : jsIs (assocLast fields "jsonrpc") (Json.str "2.0") = false) :
    handleRequest st (Json.obj fields) = .ok (some invalidRequestResponse)
    ∧ Vercel.handleMCPRequest (some (Json.obj fields)) = .ok ⟨400, some invalidRequestResponse⟩ := by
  constructor
  · simp [handleRequest, jsGet, h]
  · simp [Vercel.handleMCPRequest, jsGet, h]

/-- Witness for C1: a message with no `jsonrpc` field (and no `id`). -/
theorem c1_malformed_envelope_rejected_witness :
    jsIs (assocLast [("method", Json.str "tools/list"), ("id", Json.num 1)] "jsonrpc")
        (Json.str "2.0") = false
    ∧ (handleRequest initState
          (Json.obj [("method", Json.str "tools/list"), ("id", Json.num 1)])
        = .ok (some invalidRequestResponse)
      ∧ Vercel.handleMCPRequest
          (some (Json.obj [("method", Json.str "tools/list"), ("id", Json.num 1)]))
        = .ok ⟨400, some invalidRequestResponse⟩) :=
  ⟨by rfl, c1_malformed_envelope_rejected initState _ (by rfl)⟩

/-- Counterexample to C2: the message `{"method": "tools/list"}` has no `id`,
yet the stdio server DOES emit a response (the `-32600` error), because the
`jsonrpc` check runs before the notification check.  This falsifies the claim
for messages with a missing/malformed `jsonrpc` field. -/
theorem c2_counterexample :
    handleRequest initState (Json.obj [("method", Json.str "tools/list")])
      = .ok (some invalidRequestResponse) := by rfl

/-- C2 (amended): a message whose `jsonrpc` field IS `"2.0"` and whose `id` is
absent receives no response, whatever its method and params. -/
theorem c2_no_id_no_response (st : MCPState) (fields : List (String × Json))
    (h1 : assocLast fields "jsonrpc" = some (Json.str "2.0"))
    (h2 : assocLast fields "id" = none) :
    handleRequest st (Json.obj fields) = .ok none := by
  simp [handleRequest, jsGet, h1, h2, jsIs, Json.beq, truthyOpt, Json.truthy]

/-- Witness for C2 (amended): the `notifications/initialized` notification. -/
theorem c2_no_id_no_response_witness :
    assocLast [("jsonrpc", Json.str "2.0"), ("method", Json.str "notifications/initialized")]
        "jsonrpc" = some (Json.str "2.0")
    ∧ assocLast [("jsonrpc", Json.str "2.0"), ("method", Json.str "notifications/initialized")]
        "id" = none
    ∧ handleRequest initState
        (Json.obj [("jsonrpc", Json.str "2.0"), ("method", Json.str "notifications/initialized")])
      = .ok none :=
  ⟨by rfl, by rfl, c2_no_id_no_response initState _ (by rfl) (by rfl)⟩

/-- The workflow `{name: "x", nodes: [], connections: {}}` of C3. -/
def minimalWorkflow : Json :=
  Json.obj [("name", Json.str "x"), ("nodes", Json.arr []), ("connections", Json.obj [])]

/-- C3: `validate_workflow` on `{name: "x", nodes: [], connections: {}}`
reports status `VALID` with zero errors (end-to-end through the dispatcher). -/
theorem c3_minimal_workflow_valid :
    validationStatus minimalWorkflow = "VALID"
    ∧ (validationErrors minimalWorkflow).length = 0
    ∧ handleRequest initState
        (Json.obj [("jsonrpc", Json.str "2.0"), ("method", Json.str "tools/call"),
          ("params", Json.obj [("name", Json.str "validate_workflow"),
            ("arguments", Json.obj [("workflow", minimalWorkflow)])]),
          ("id", Json.num 1)])
      = .ok (some (textResponse (validationText minimalWorkflow) (Json.num 1))) :=
  ⟨by rfl, by rfl, by rfl⟩

/-- C7: `list_nodes` with category `"slack"` filters the constant 35-entry
node list case-insensitively and the matches are exactly `["Slack"]`, which is
what the response reports. -/
theorem c7_list_nodes_slack (id : Json) :
    allNodes.length = 35
    ∧ allNodes.filter (fun n => jsIncludes (jsToLower n) (jsToLower "slack")) = ["Slack"]
    ∧ handleListNodes (some (Json.obj [("category", Json.str "slack")])) id
        = .ok (textResponse (listNodesText (some "slack") ["Slack"]) id) :=
  ⟨by rfl, by rfl, by rfl⟩

/-- Counterexample to C4: the workflow `{name: "x", nodes: 5, connections: {}}`
has a `nodes` field that is not an array, yet no `INVALID` result is produced:
`workflow.nodes.forEach` throws (`5` is truthy but has no `forEach`), the
exception is caught by `main`, and nothing is emitted — end-to-end, the
dispatch of this `validate_workflow` call yields the exception outcome. -/
theorem c4_counterexample :
    (Json.num 5).isArr = false
    ∧ handleRequest initState
        (Json.obj [("jsonrpc", Json.str "2.0"), ("method", Json.str "tools/call"),
          ("params", Json.obj [("name", Json.str "validate_workflow"),
            ("arguments", Json.obj [("workflow",
              Json.obj [("name", Json.str "x"), ("nodes", Json.num 5),
                ("connections", Json.obj [])])])]),
          ("id", Json.num 1)])
      = .error () :=
  ⟨by rfl, by rfl⟩

/-- C4 (amended): for every truthy workflow whose `nodes` field is absent or
otherwise falsy (in particular, any workflow with no `nodes` field), the
accumulated error list contains `Missing or invalid nodes array`, the reported
status is `INVALID`, and the handler does report (it cannot throw). -/
theorem c4_missing_nodes_invalid (w : Json) (id : Json)
    (h1 : w.truthy = true)
    (h2 : truthyOpt (jsGet w "nodes") = false) :
    "Missing or invalid nodes array" ∈ validationErrors w
    ∧ validationStatus w = "INVALID"
    ∧ handleValidateWorkflow (some (Json.obj [("workflow", w)])) id
        = .ok (textResponse (validationText w) id) := by
  have hmem : "Missing or invalid nodes array" ∈ structureErrors w := by
    simp [structureErrors, h2]
  have hmem' : "Missing or invalid nodes array" ∈ validationErrors w := by
    unfold validationErrors
    exact List.mem_append_left _ (List.mem_append_left _ hmem)
  have hthrow : validationThrows w = false := by simp [validationThrows, h2]
  refine ⟨hmem', ?_, ?_⟩
  · cases hl : validationErrors w with
    | nil => rw [hl] at hmem'; cases hmem'
    | cons a t => simp [validationStatus, hl]
  · simp [handleValidateWorkflow, jsGetOpt, jsGet, assocLast, h1, hthrow]

/-- Witness for C4 (amended): `{name: "x", connections: {}}` (no `nodes`). -/
theorem c4_missing_nodes_invalid_witness :
    (Json.obj [("name", Json.str "x"), ("connections", Json.obj [])]).truthy = true
    ∧ truthyOpt (jsGet (Json.obj [("name", Json.str "x"), ("connections", Json.obj [])]) "nodes")
        = false
    ∧ ("Missing or invalid nodes array"
        ∈ validationErrors (Json.obj [("name", Json.str "x"), ("connections", Json.obj [])])
      ∧ validationStatus (Json.obj [("name", Json.str "x"), ("connections", Json.obj [])])
        = "INVALID"
      ∧ handleValidateWorkflow
          (some (Json.obj [("workflow",
            Json.obj [("name", Json.str "x"), ("connections", Json.obj [])])]))
          (Json.num 1)
        = .ok (textResponse
            (validationText (Json.obj [("name", Json.str "x"), ("connections", Json.obj [])]))
            (Json.num 1))) :=
  ⟨by rfl, by rfl, c4_missing_nodes_invalid _ _ (by rfl) (by rfl)⟩

/-- Whether a handler outcome is a reply carrying a JSON-RPC `error` member. -/
def sentErrorObject (r : Except Unit Json) : Bool :=
  match r with
  | .ok j => (jsGet j "error").isSome
  | .error _ => false

/-- Counterexample to C5: the empty string is not one of the five known
workflow types, yet `create_test_workflow` with `workflowType: ""` does NOT
return a `-32602` error: the `args?.workflowType || 'webhook_to_slack'`
default turns the falsy `""` into `webhook_to_slack` and a success result is
returned. -/
theorem c5_counterexample :
    ("" ∈ ["webhook_to_slack", "manual_to_http", "schedule_to_email", "ai_agent",
      "data_processing"]) = False
    ∧ (handleCreateTestWorkflow (some (Json.obj [("workflowType", Json.str "")]))
        (Json.num 1)).isOk = true
    ∧ sentErrorObject
        (handleCreateTestWorkflow (some (Json.obj [("workflowType", Json.str "")]))
          (Json.num 1)) = false :=
  ⟨by simp, by rfl, by rfl⟩

/-- C5 (amended): for every NON-EMPTY `workflowType` string that is not one of
the five known workflow types: if it is also not a property name inherited
from `Object.prototype`, `create_test_workflow` returns the `-32602` error
whose message contains that string; if it IS such an inherited name, the
lookup finds a truthy built-in and the handler throws while building the
reply, emitting nothing.  (An empty `workflowType` instead falls back to
`webhook_to_slack`.) -/
theorem c5_unknown_workflow_type (s : String) (id : Json)
    (h1 : s ≠ "")
    (h2 : s ∉ ["webhook_to_slack", "manual_to_http", "schedule_to_email", "ai_agent",
      "data_processing"]) :
    (s ∉ objectPrototypeMembers →
      handleCreateTestWorkflow (some (Json.obj [("workflowType", Json.str s)])) id
        = .ok (errResponse (-32602) ("Unknown workflow type: " ++ s) id)
      ∧ jsIncludes ("Unknown workflow type: " ++ s) s = true)
    ∧ (s ∈ objectPrototypeMembers →
      handleCreateTestWorkflow (some (Json.obj [("workflowType", Json.str s)])) id
        = .error ()) := by
  simp at h2
  obtain ⟨n1, n2, n3, n4, n5⟩ := h2
  constructor
  · intro h3
    refine ⟨?_, jsIncludes_append_right "Unknown workflow type: " s⟩
    simp [handleCreateTestWorkflow, jsGetOpt, jsGet, assocLast, Json.truthy, jsToString,
      lookupFirst, testWorkflows, beq_eq_false_iff_ne, h1, h3,
      Ne.symm n1, Ne.symm n2, Ne.symm n3, Ne.symm n4, Ne.symm n5]
  · intro h3
    simp [handleCreateTestWorkflow, jsGetOpt, jsGet, assocLast, Json.truthy, jsToString,
      lookupFirst, testWorkflows, beq_eq_false_iff_ne, h1, h3,
      Ne.symm n1, Ne.symm n2, Ne.symm n3, Ne.symm n4, Ne.symm n5]

/-- Witness for C5 (amended): `workflowType: "unknown_type"`. -/
theorem c5_unknown_workflow_type_witness :
    "unknown_type" ≠ ""
    ∧ "unknown_type" ∉ ["webhook_to_slack", "manual_to_http", "schedule_to_email",
        "ai_agent", "data_processing"]
    ∧ "unknown_type" ∉ objectPrototypeMembers
    ∧ (handleCreateTestWorkflow
          (some (Json.obj [("workflowType", Json.str "unknown_type")])) (Json.num 1)
        = .ok (errResponse (-32602) "Unknown workflow type: unknown_type" (Json.num 1))
      ∧ jsIncludes "Unknown workflow type: unknown_type" "unknown_type" = true) :=
  ⟨by decide, by decide, by decide,
    (c5_unknown_workflow_type "unknown_type" (Json.num 1) (by decide) (by decide)).1
      (by decide)⟩

/-- The `get_node_info` text for the `HTTP Request` table entry. -/
def httpRequestInfoText : String :=
  "**HTTP Request Node**\n\n**Description:** Make HTTP requests to external APIs and services\n**Category:** Core\n**Key Properties:** URL, Method, Headers, Body, Authentication\n**Common Use Cases:** GET API data, POST form data, PUT update resource"

/-- Counterexample to C6: the empty string is a nodeName that is not a key of
the known table, yet `get_node_info` with `nodeName: ""` does NOT return the
generic fallback: the `args?.nodeName || 'HTTP Request'` default turns the
falsy `""` into `HTTP Request`, whose specific table entry is returned (the
fallback description appears nowhere in the response text). -/
theorem c6_counterexample :
    ("" ∈ ["HTTP Request", "Function", "If"]) = False
    ∧ handleGetNodeInfo (some (Json.obj [("nodeName", Json.str "")])) (Json.num 1)
        = .ok (textResponse httpRequestInfoText (Json.num 1))
    ∧ jsIncludes httpRequestInfoText "A powerful n8n node for workflow automation" = false :=
  ⟨by simp, by rfl, by rfl⟩

/-- The generic fallback text of `get_node_info` for a nodeName `s`: the
handler's text template instantiated with `fallbackNodeInfo`. -/
def fallbackInfoText (s : String) : String :=
  "**" ++ s ++ " Node**\n\n**Description:** " ++ fallbackNodeInfo.description
    ++ "\n**Category:** " ++ fallbackNodeInfo.category
    ++ "\n**Key Properties:** " ++ String.intercalate ", " fallbackNodeInfo.properties
    ++ "\n**Common Use Cases:** " ++ String.intercalate ", " fallbackNodeInfo.examples

/-- C6 (amended): for every NON-EMPTY `nodeName` string that is not a key of
the known node-info table: if it is also not a property name inherited from
`Object.prototype`, `get_node_info` returns the result built from the generic
fallback record, and the reply carries no JSON-RPC `error` member; if it IS
such an inherited name, the `||` fallback is skipped and the handler throws
while building the reply, emitting nothing.  (An empty `nodeName` instead
falls back to the `HTTP Request` entry.) -/
theorem c6_unknown_node_fallback (s : String) (id : Json)
    (h1 : s ≠ "")
    (h2 : s ∉ ["HTTP Request", "Function", "If"]) :
    (s ∉ objectPrototypeMembers →
      handleGetNodeInfo (some (Json.obj [("nodeName", Json.str s)])) id
        = .ok (textResponse (fallbackInfoText s) id)
      ∧ jsGet (textResponse (fallbackInfoText s) id) "error" = none)
    ∧ (s ∈ objectPrototypeMembers →
      handleGetNodeInfo (some (Json.obj [("nodeName", Json.str s)])) id
        = .error ()) := by
  simp at h2
  obtain ⟨n1, n2, n3⟩ := h2
  constructor
  · intro h3
    constructor
    · simp [handleGetNodeInfo, jsGetOpt, jsGet, assocLast, Json.truthy, jsToString,
        lookupFirst, nodeInfoTable, fallbackInfoText, nodeInfoText, beq_eq_false_iff_ne,
        h1, h3, Ne.symm n1, Ne.symm n2, Ne.symm n3]
    · simp [textResponse, jsGet, assocLast]
  · intro h3
    simp [handleGetNodeInfo, jsGetOpt, jsGet, assocLast, Json.truthy, jsToString,
      lookupFirst, nodeInfoTable, beq_eq_false_iff_ne,
      h1, h3, Ne.symm n1, Ne.symm n2, Ne.symm n3]

/-- Witness for C6 (amended): `nodeName: "Zebra"`. -/
theorem c6_unknown_node_fallback_witness :
    "Zebra" ≠ ""
    ∧ "Zebra" ∉ ["HTTP Request", "Function", "If"]
    ∧ "Zebra" ∉ objectPrototypeMembers
    ∧ (handleGetNodeInfo (some (Json.obj [("nodeName", Json.str "Zebra")])) (Json.num 1)
        = .ok (textResponse (fallbackInfoText "Zebra") (Json.num 1))
      ∧ jsGet (textResponse (fallbackInfoText "Zebra") (Json.num 1)) "error" = none) :=
  ⟨by decide, by decide, by decide,
    (c6_unknown_node_fallback "Zebra" (Json.num 1) (by decide) (by decide)).1 (by decide)⟩

/-- Counterexample to C8: with the environment token `secret`, the header
`Bearer  secret` (two spaces) does NOT start with `'Bearer '` followed by the
exact token — so the claim classifies the request as unauthorized — yet
`validateAuth` accepts it (`slice(7).trim()` discards the extra space): the
POST is answered 200 by the MCP dispatcher, not 401. -/
theorem c8_counterexample :
    chPrefix ("Bearer " ++ "secret").data ("Bearer  secret").data = false
    ∧ Vercel.validateAuth (some "secret")
        ⟨"POST", "/", some "Bearer  secret",
          some (Json.obj [("jsonrpc", Json.str "2.0"), ("method", Json.str "tools/list"),
            ("id", Json.num 1)])⟩ = true
    ∧ Vercel.handler (some "secret") "2024-01-01T00:00:00.000Z"
        ⟨"POST", "/", some "Bearer  secret",
          some (Json.obj [("jsonrpc", Json.str "2.0"), ("method", Json.str "tools/list"),
            ("id", Json.num 1)])⟩
      = .ok (⟨200, some (Json.obj [("jsonrpc", Json.str "2.0"),
          ("result", Json.obj [("tools", Vercel.toolsJson)]), ("id", Json.num 1)])⟩, true) :=
  ⟨by rfl, by rfl, by rfl⟩

/-- If the Authorization header is absent, empty, does not start with
`'Bearer '`, or its remainder does not equal the configured token after
trimming, `validateAuth` rejects. -/
theorem validateAuth_false (authToken : Option String) (req : HttpRequest)
    (h3 : match req.authorization with
      | none => True
      | some h => h = "" ∨ jsStartsWith h "Bearer " = false
          ∨ some (jsTrim (h.drop 7)) ≠ authToken) :
    Vercel.validateAuth authToken req = false := by
  unfold Vercel.validateAuth
  cases ha : req.authorization with
  | none => rfl
  | some h =>
    rw [ha] at h3
    rcases h3 with he | hs | ht
    · simp [he]
    · simp [hs]
    · cases authToken with
      | none => simp
      | some t =>
        have hne : jsTrim (h.drop 7) ≠ t := fun hh => ht (congrArg some hh)
        simp [beq_eq_false_iff_ne.mpr hne]

/-- C8 (amended): every POST to a path other than `/health` whose
Authorization header is absent, empty, does not start with `'Bearer '`, or
whose remainder after `'Bearer '` differs from the environment token after
trimming surrounding whitespace, is answered with the 401-status `-32001`
JSON-RPC error, and the MCP dispatcher is not invoked (the Bool component
records whether `handleMCPRequest` ran). -/
theorem c8_unauthorized_401 (authToken : Option String) (now : String) (req : HttpRequest)
    (h1 : req.method = "POST")
    (_h2 : req.url ≠ "/health")
    (h3 : match req.authorization with
      | none => True
      | some h => h = "" ∨ jsStartsWith h "Bearer " = false
          ∨ some (jsTrim (h.drop 7)) ≠ authToken) :
    Vercel.handler authToken now req
      = .ok (⟨401, some (Vercel.auth401Body (Vercel.jsOrNull (jsGetOpt req.body "id")))⟩,
          false) := by
  have hauth := validateAuth_false authToken req h3
  simp [Vercel.handler, h1, hauth]

/-- Witness for C8 (amended): a POST to `/` with no Authorization header. -/
theorem c8_unauthorized_401_witness :
    ("POST" : String) = "POST"
    ∧ ("/" : String) ≠ "/health"
    ∧ Vercel.handler (some "secret") "2024-01-01T00:00:00.000Z"
        ⟨"POST", "/", none,
          some (Json.obj [("jsonrpc", Json.str "2.0"), ("method", Json.str "tools/list"),
            ("id", Json.num 1)])⟩
      = .ok (⟨401, some (Vercel.auth401Body (Vercel.jsOrNull (jsGetOpt
          (some (Json.obj [("jsonrpc", Json.str "2.0"), ("method", Json.str "tools/list"),
            ("id", Json.num 1)])) "id")))⟩, false) :=
  ⟨rfl, by decide,
    c8_unauthorized_401 (some "secret") "2024-01-01T00:00:00.000Z"
      ⟨"POST", "/", none,
        some (Json.obj [("jsonrpc", Json.str "2.0"), ("method", Json.str "tools/list"),
          ("id", Json.num 1)])⟩
      rfl (by decide) trivial⟩

/-- Length of a JSON array (0 otherwise). -/
def jsonArrLength : Json → Nat
  | .arr l => l.length
  | _ => 0

/-- Processing any request leaves the server state unchanged: no method of
`MCPServer` assigns to `this`. -/
theorem runServer_fst (reqs : List Json) (st : MCPState) : (runServer st reqs).1 = st := by
  induction reqs with
  | nil => rfl
  | cons r rest ih => simp [runServer, ih]

/-- C9: after any sequence of prior requests, the server state still holds the
constant 8-entry tool table, and `tools/list` is answered with exactly that
table — the response is identical across calls. -/
theorem c9_tools_list_immutable (reqs : List Json) (id : Json) :
    (runServer initState reqs).1 = initState
    ∧ handleRequest (runServer initState reqs).1
        (Json.obj [("jsonrpc", Json.str "2.0"), ("method", Json.str "tools/list"),
          ("id", id)])
      = .ok (some (Json.obj [("jsonrpc", Json.str "2.0"),
          ("result", Json.obj [("tools", serverToolsJson)]), ("id", id)]))
    ∧ jsonArrLength serverToolsJson = 8 := by
  refine ⟨runServer_fst reqs initState, ?_, by rfl⟩
  rw [runServer_fst]
  rfl

/-- The `nodes` array of a workflow (empty if `nodes` is not an array). -/
def nodesArrOf (w : Json) : List Json :=
  match jsGet w "nodes" with
  | some (Json.arr l) => l
  | _ => []

theorem enumFrom_warn_length (l : List Json) (i : Nat) :
    ((List.enumFrom i l).filterMap (fun p =>
      if !truthyOpt (jsGet p.2 "typeVersion")
      then some ("Node " ++ toString p.1 ++ ": Missing typeVersion (recommended)")
      else none)).length
    = (l.filter (fun n => !truthyOpt (jsGet n "typeVersion"))).length := by
  induction l generalizing i with
  | nil => rfl
  | cons n t ih =>
    cases hb : truthyOpt (jsGet n "typeVersion") with
    | false => simpa [List.enumFrom, hb] using ih (i + 1)
    | true => simpa [List.enumFrom, hb] using ih (i + 1)

/-- C10: whenever `validate_workflow` reports (i.e. its node loop does not
throw), the reported status is `VALID` iff the accumulated error list is
empty — warnings never affect it — and the warning list has exactly one entry
per node whose `typeVersion` is missing (falsy). -/
theorem c10_valid_iff_no_errors (w : Json)
    (_h : validationThrows w = false) :
    ((validationStatus w = "VALID") ↔ validationErrors w = [])
    ∧ (validationErrors w = [] → validationStatus w = "VALID")
    ∧ (validationWarnings w).length
        = ((nodesArrOf w).filter (fun n => !truthyOpt (jsGet n "typeVersion"))).length := by
  have hiff : (validationStatus w = "VALID") ↔ validationErrors w = [] := by
    cases hl : validationErrors w with
    | nil => simp [validationStatus, hl]
    | cons a t => simp [validationStatus, hl]
  refine ⟨hiff, fun he => hiff.mpr he, ?_⟩
  unfold validationWarnings nodesArrOf
  cases hn : jsGet w "nodes" with
  | none => simp [truthyOpt]
  | some j =>
    cases j with
    | arr l =>
      simp only [truthyOpt, Json.truthy, if_true]
      simpa [nodeWarnings, List.enum] using enumFrom_warn_length l 0
    | null => simp [truthyOpt, Json.truthy]
    | bool b => cases b <;> simp [truthyOpt, Json.truthy]
    | num q => by_cases hq : (q == 0) = true <;> simp [truthyOpt, Json.truthy, hq]
    | str s => by_cases hs : (s == "") = true <;> simp [truthyOpt, Json.truthy, hs]
    | obj fs => simp [truthyOpt, Json.truthy]

/-- The C10 witness workflow: one node with `id`/`name`/`type`/`position` but
no `typeVersion`. -/
def c10WitnessWorkflow : Json :=
  Json.obj [("name", Json.str "x"),
    ("nodes", Json.arr [Json.obj [("id", Json.str "a"), ("name", Json.str "n"),
      ("type", Json.str "t"), ("position", Json.arr [Json.num 1, Json.num 2])]]),
    ("connections", Json.obj [])]

/-- Witness for C10: a valid workflow with one node lacking `typeVersion`:
status `VALID`, one warning. -/
theorem c10_valid_iff_no_errors_witness :
    validationThrows c10WitnessWorkflow = false
    ∧ (((validationStatus c10WitnessWorkflow = "VALID")
          ↔ validationErrors c10WitnessWorkflow = [])
      ∧ (validationErrors c10WitnessWorkflow = []
          → validationStatus c10WitnessWorkflow = "VALID")
      ∧ (validationWarnings c10WitnessWorkflow).length
          = ((nodesArrOf c10WitnessWorkflow).filter
              (fun n => !truthyOpt (jsGet n "typeVersion"))).length)
    ∧ validationErrors c10WitnessWorkflow = []
    ∧ validationStatus c10WitnessWorkflow = "VALID"
    ∧ (validationWarnings c10WitnessWorkflow).length = 1 :=
  ⟨by rfl, c10_valid_iff_no_errors _ (by rfl), by rfl, by rfl, by rfl⟩

/-- Witness for C7 at `id = 1`. -/
theorem c7_list_nodes_slack_witness :
    allNodes.length = 35
    ∧ allNodes.filter (fun n => jsIncludes (jsToLower n) (jsToLower "slack")) = ["Slack"]
    ∧ handleListNodes (some (Json.obj [("category", Json.str "slack")])) (Json.num 1)
        = .ok (textResponse (listNodesText (some "slack") ["Slack"]) (Json.num 1)) :=
  c7_list_nodes_slack (Json.num 1)

/-- Witness for C9 with no prior requests and `id = 1`. -/
theorem c9_tools_list_immutable_witness :
    (runServer initState []).1 = initState
    ∧ handleRequest (runServer initState []).1
        (Json.obj [("jsonrpc", Json.str "2.0"), ("method", Json.str "tools/list"),
          ("id", Json.num 1)])
      = .ok (some (Json.obj [("jsonrpc", Json.str "2.0"),
          ("result", Json.obj [("tools", serverToolsJson)]), ("id", Json.num 1)]))
    ∧ jsonArrLength serverToolsJson = 8 :=
  c9_tools_list_immutable [] (Json.num 1)
